import Mathlib

/-
Verification of the InvoiceFlow-AI reasoning pipeline
(backend/agents: nlp_agent.py, fraud_agent.py, policy_agent.py, decision_agent.py).

The Python code is shallowly embedded: dicts become structures, floats become
rationals, Python truthiness of optional strings becomes an explicit test,
and the mutable FraudAgent ledger (self.processed_invoices) becomes explicit
state passing.  Wall-clock time (datetime.now) is passed as a rational number
of seconds; ledger entries store their timestamp.
-/

/-- Python truthiness for an optional string: None and the empty string are
falsy, every other string is truthy. -/
def falsyS : Option String → Bool
  | none => true
  | some s => s == ""

/-- Rendering of an optional string inside a Python f-string: None prints as
the literal text None. -/
def showOpt : Option String → String
  | none => "None"
  | some s => s

/-- Stand-in for Python numeric formatting inside f-strings (for example the
format spec ",.2f").  No verified property depends on its output; it only has
to be a total computable function into String. -/
def fmtAmt (q : ℚ) : String :=
  toString q.num ++ "/" ++ toString q.den

/-- Model of Python round(x, 2): round to two decimal places.  All risk and
confidence scores produced by the pipeline are integer multiples of 1/20, so
no value ever sits at a rounding tie and the tie-breaking convention is
irrelevant; half-up is used here. -/
def round2 (x : ℚ) : ℚ :=
  (Int.floor (x * 100 + 1 / 2) : ℚ) / 100

/-- Structured invoice produced by NLPAgent.extract and consumed by the fraud,
policy and decision agents (a Python dict in the source). -/
structure ExtractedInvoice where
  invoice_number : Option String
  date : Option String
  vendor : Option String
  total_amount : ℚ
  currency : String
  po_number : Option String
  tax_amount : Option ℚ
  line_items : List String
  confidence : ℚ
  status : String
  error : Option String
deriving Repr, DecidableEq

/-- Entry of FraudAgent.processed_invoices (the in-memory ledger); timestamp
is datetime.now() at insertion time, modelled as rational seconds. -/
structure LedgerEntry where
  invoice_number : Option String
  vendor : Option String
  amount : ℚ
  date : Option String
  timestamp : ℚ
deriving Repr, DecidableEq

/-- Result dict of FraudAgent._check_duplicate. -/
structure DupResult where
  is_duplicate : Bool
  message : String
deriving Repr, DecidableEq

-- FraudAgent.thresholds (fraud_agent.py, __init__)

def high_amount : ℚ := 10000
def very_high_amount : ℚ := 50000
def suspicious_frequency_same_day : ℕ := 3
def suspicious_frequency_same_hour : ℕ := 2
def round_amount_min : ℚ := 1000

/-- Loop body of FraudAgent._check_duplicate: scan the ledger in order and
return at the FIRST entry whose invoice_number matches, reporting a duplicate
only when that entry also has the same vendor. -/
def dupLoop (inum vend : Option String) : List LedgerEntry → DupResult
  | [] => ⟨false, "No duplicate found"⟩
  | e :: rest =>
    if e.invoice_number = inum then
      if e.vendor = vend then
        ⟨true, "Invoice #" ++ showOpt inum ++ " already processed for " ++ showOpt vend⟩
      else
        ⟨false, "Invoice #" ++ showOpt inum ++ " exists for different vendor"⟩
    else
      dupLoop inum vend rest

/-- FraudAgent._check_duplicate. -/
def check_duplicate (inum vend : Option String) (ledger : List LedgerEntry) : DupResult :=
  if falsyS inum then ⟨false, "No invoice number to check"⟩
  else dupLoop inum vend ledger

/-- FraudAgent._is_suspicious_round_amount: amounts at or above
round_amount_min that are exact multiples of 100.  The Python test
amount % 100 == 0 becomes the test that amount / 100 is an integer. -/
def is_suspicious_round_amount (amount : ℚ) : Bool :=
  if amount < round_amount_min then false
  else if (amount / 100).den = 1 ∧ amount ≥ 1000 then true
  else false

/-- FraudAgent._check_vendor_frequency: counts prior ledger entries of the
same vendor within the last hour / last 24 hours relative to now, returning
(suspicious, message).  The date argument is unused in the source. -/
def check_vendor_frequency (vendor : Option String) (_date : Option String)
    (ledger : List LedgerEntry) (now : ℚ) : Bool × String :=
  if falsyS vendor then (false, "No vendor to check")
  else
    let today_count := (ledger.filter
      (fun e => decide (e.vendor = vendor) && decide (now - e.timestamp < 86400))).length
    let recent_count := (ledger.filter
      (fun e => decide (e.vendor = vendor) && decide (now - e.timestamp < 3600))).length
    if recent_count ≥ suspicious_frequency_same_hour then
      (true, "Multiple invoices from " ++ showOpt vendor ++ " within 1 hour (" ++
        toString (recent_count + 1) ++ " total)")
    else if today_count ≥ suspicious_frequency_same_day then
      (true, "Multiple invoices from " ++ showOpt vendor ++ " today (" ++
        toString (today_count + 1) ++ " total)")
    else (false, "Normal frequency")

/-- FraudAgent._check_missing_fields over the four critical fields.  A string
field is missing when falsy; the numeric total_amount is missing when falsy
(zero) or non-positive, which together is exactly total_amount ≤ 0. -/
def check_missing_fields (data : ExtractedInvoice) : List String :=
  (if falsyS data.invoice_number then ["invoice_number"] else []) ++
  (if falsyS data.vendor then ["vendor"] else []) ++
  (if falsyS data.date then ["date"] else []) ++
  (if data.total_amount ≤ 0 then ["total_amount"] else [])

/-- FraudAgent._check_invoice_pattern: suspicious when the invoice number is
an all-digit string of length at most 3, or consists entirely of the digit 0
or entirely of the digit 1 (the regexes [0]+ and [1]+ on a non-empty
string). -/
def check_invoice_pattern (inum : Option String) : Bool × String :=
  if falsyS inum then (false, "No invoice number")
  else
    let s := showOpt inum
    if s.toList.all Char.isDigit ∧ s.length ≤ 3 then
      (true, "Suspiciously simple invoice number: " ++ s)
    else if s.toList.all (fun c => c = '0') ∨ s.toList.all (fun c => c = '1') then
      (true, "Invalid invoice number pattern: " ++ s)
    else (false, "Normal pattern")

/-- FraudAgent._check_amount_consistency: True (consistent) when there is no
positive tax; otherwise, when total_amount is positive, the tax percentage
tax / total * 100 must lie inside [3, 25]. -/
def check_amount_consistency (data : ExtractedInvoice) : Bool :=
  match data.tax_amount with
  | none => true
  | some tax =>
    if tax ≤ 0 then true
    else if data.total_amount > 0 then
      let tax_percentage := tax / data.total_amount * 100
      if tax_percentage < 3 ∨ tax_percentage > 25 then false else true
    else true

/-- FraudAgent._get_risk_level: discretize the score into
MINIMAL / LOW / MEDIUM / HIGH with inclusive lower bounds 0.2 / 0.4 / 0.7. -/
def get_risk_level (score : ℚ) : String :=
  if score ≥ 0.7 then "HIGH"
  else if score ≥ 0.4 then "MEDIUM"
  else if score ≥ 0.2 then "LOW"
  else "MINIMAL"

/-- Ledger entry appended by FraudAgent._store_invoice for this invoice at
time now. -/
def mkEntry (data : ExtractedInvoice) (now : ℚ) : LedgerEntry :=
  ⟨data.invoice_number, data.vendor, data.total_amount, data.date, now⟩

/-- FraudAgent._store_invoice: append the entry and keep only the last 100
entries (the Python slice [-100:]). -/
def store_invoice (data : ExtractedInvoice) (now : ℚ)
    (ledger : List LedgerEntry) : List LedgerEntry :=
  let l := ledger ++ [mkEntry data now]
  if l.length > 100 then l.drop (l.length - 100) else l

-- Per-check (flags, score contribution) pairs, in the order FraudAgent.detect
-- performs the seven checks and accumulates flags and risk_score.

/-- Check 1 of FraudAgent.detect: duplicate detection, weight 0.5. -/
def dupPart (data : ExtractedInvoice) (ledger : List LedgerEntry) : List String × ℚ :=
  let d := check_duplicate data.invoice_number data.vendor ledger
  if d.is_duplicate then (["Duplicate invoice: " ++ d.message], 0.5) else ([], 0)

/-- Check 2 of FraudAgent.detect: very high amount (0.3) else high amount
(0.2), mutually exclusive. -/
def amountPart (data : ExtractedInvoice) : List String × ℚ :=
  if data.total_amount ≥ very_high_amount then
    (["Very high amount: " ++ data.currency ++ " " ++ fmtAmt data.total_amount], 0.3)
  else if data.total_amount ≥ high_amount then
    (["High amount: " ++ data.currency ++ " " ++ fmtAmt data.total_amount], 0.2)
  else ([], 0)

/-- Check 3 of FraudAgent.detect: suspicious round amount, weight 0.15. -/
def roundPart (data : ExtractedInvoice) : List String × ℚ :=
  if is_suspicious_round_amount data.total_amount then
    (["Suspicious round amount: " ++ data.currency ++ " " ++ fmtAmt data.total_amount], 0.15)
  else ([], 0)

/-- Check 4 of FraudAgent.detect: vendor frequency anomaly, weight 0.25. -/
def freqPart (data : ExtractedInvoice) (ledger : List LedgerEntry) (now : ℚ) :
    List String × ℚ :=
  let f := check_vendor_frequency data.vendor data.date ledger now
  if f.1 then ([f.2], 0.25) else ([], 0)

/-- Check 5 of FraudAgent.detect: missing critical fields, weight 0.2. -/
def missingPart (data : ExtractedInvoice) : List String × ℚ :=
  let m := check_missing_fields data
  if m ≠ [] then (["Missing critical fields: " ++ String.intercalate ", " m], 0.2)
  else ([], 0)

/-- Check 6 of FraudAgent.detect: suspicious invoice number pattern,
weight 0.1. -/
def patternPart (data : ExtractedInvoice) : List String × ℚ :=
  let p := check_invoice_pattern data.invoice_number
  if p.1 then ([p.2], 0.1) else ([], 0)

/-- Check 7 of FraudAgent.detect: inconsistent tax calculation, weight 0.1. -/
def consPart (data : ExtractedInvoice) : List String × ℚ :=
  if check_amount_consistency data then ([], 0)
  else (["Tax calculation appears inconsistent"], 0.1)

/-- Risk score accumulated by FraudAgent.detect before the min(·, 1.0) cap:
the sum of the seven check contributions. -/
def rawScore (data : ExtractedInvoice) (ledger : List LedgerEntry) (now : ℚ) : ℚ :=
  (dupPart data ledger).2 + (amountPart data).2 + (roundPart data).2 +
  (freqPart data ledger now).2 + (missingPart data).2 + (patternPart data).2 +
  (consPart data).2

/-- Flags accumulated by FraudAgent.detect, in check order. -/
def rawFlags (data : ExtractedInvoice) (ledger : List LedgerEntry) (now : ℚ) :
    List String :=
  (dupPart data ledger).1 ++ (amountPart data).1 ++ (roundPart data).1 ++
  (freqPart data ledger now).1 ++ (missingPart data).1 ++ (patternPart data).1 ++
  (consPart data).1

/-- Result dict of FraudAgent.detect (the details sub-dict is omitted; its
three components are the standalone functions above). -/
structure FraudResult where
  is_suspicious : Bool
  risk_score : ℚ
  risk_level : String
  flags : List String
deriving Repr, DecidableEq

/-- FraudAgent.detect: run the seven checks against the current ledger, cap
the score at 1.0, derive is_suspicious (score at least 0.3) and the risk
level, substitute the sentinel flag when no check fired, and append this
invoice to the ledger (the _store_invoice side effect, performed after
scoring).  Returns the assessment together with the new ledger state. -/
def detect (data : ExtractedInvoice) (ledger : List LedgerEntry) (now : ℚ) :
    FraudResult × List LedgerEntry :=
  let risk_score := min (rawScore data ledger now) 1
  let flags := rawFlags data ledger now
  (⟨decide (risk_score ≥ 0.3), round2 risk_score, get_risk_level risk_score,
    if flags = [] then ["No fraud indicators detected"] else flags⟩,
   store_invoice data now ledger)

/-- Result dict of PolicyAgent._validate_invoice_format. -/
structure FormatResult where
  valid : Bool
  message : String
deriving Repr, DecidableEq

/-- Character class of the invoice-number format regex [A-Z0-9#-] compiled
with IGNORECASE: ASCII letters, digits, hash and dash. -/
def invoiceFormatChar (c : Char) : Bool :=
  c.isAlpha || c.isDigit || c == '#' || c == '-'

/-- PolicyAgent._validate_invoice_format: missing or too-short invoice
numbers are invalid; an invoice number containing characters outside
[A-Za-z0-9#-] is reported VALID with an unusual-characters message (the
source comment reads Valid but warning); otherwise valid. -/
def validate_invoice_format (inum : Option String) : FormatResult :=
  if falsyS inum then ⟨false, "Invoice number is missing"⟩
  else
    let s := showOpt inum
    if s.length < 3 then
      ⟨false, "Invoice number " ++ s ++ " is too short (minimum 3 characters)"⟩
    else if !(s.toList.all invoiceFormatChar) then
      ⟨true, "Invoice number " ++ s ++ " contains unusual characters"⟩
    else ⟨true, "Invoice number format is valid"⟩

/-- Contribution of check 6 of PolicyAgent.check_compliance to the warnings
list: the caller appends the message only when the format result is not
valid (policy_agent.py lines 99-102). -/
def invoice_format_warnings (inum : Option String) : List String :=
  if !(validate_invoice_format inum).valid then [(validate_invoice_format inum).message]
  else []

/-- Contribution of check 6 of PolicyAgent.check_compliance to the
violations list: the source never appends this check to violations. -/
def invoice_format_violations (_inum : Option String) : List String := []

/-- Inputs of DecisionAgent.decide taken from the policy agent result dict. -/
structure PolicyResult where
  compliant : Bool
  violations : List String
  warnings : List String
  approval_level : String
  approver_required : String
deriving Repr, DecidableEq

/-- Summary sub-dict of the DecisionAgent.decide result. -/
structure DecisionSummary where
  fraud_risk : String
  policy_status : String
  approval_required : String
  amount : ℚ
  vendor : String
deriving Repr, DecidableEq

/-- Result dict of DecisionAgent.decide. -/
structure Decision where
  decision : String
  reason : String
  confidence : ℚ
  recommendation : String
  summary : DecisionSummary
deriving Repr, DecidableEq

/-- DecisionAgent._build_recommendation. -/
def build_recommendation (decision : String) (fraud : FraudResult)
    (policy : PolicyResult) : String :=
  let p1 := if decision = "APPROVE" then "Recommended for approval."
    else if decision = "HOLD" then "Recommended to HOLD for manual review."
    else "Recommended to REJECT."
  let p2 := if fraud.is_suspicious then
      ["Fraud concerns: " ++ String.intercalate ", " (fraud.flags.take 2)] else []
  let p3 := if !policy.compliant then
      ["Policy issues: " ++ String.intercalate ", " (policy.violations.take 2)] else []
  let p4 := if policy.warnings ≠ [] then
      ["Note: " ++ toString policy.warnings.length ++ " warnings flagged"] else []
  String.intercalate " " ([p1] ++ p2 ++ p3 ++ p4)

/-- DecisionAgent.decide: the first-match-wins if/elif ladder fusing the
extraction, fraud and policy results into the final REJECT / HOLD / APPROVE
decision with its fixed confidence weight. -/
def decide_fn (extraction : ExtractedInvoice) (fraud : FraudResult)
    (policy : PolicyResult) : Decision :=
  let fraud_risk := fraud.risk_score
  let fraud_level := fraud.risk_level
  let amount := extraction.total_amount
  let vendor := showOpt extraction.vendor
  let confidence := extraction.confidence
  let dc : String × String × ℚ :=
    if fraud_level = "HIGH" ∨ fraud_risk ≥ 0.7 then
      ("REJECT", "High fraud risk detected (score: " ++ fmtAmt fraud_risk ++ ")", 0.95)
    else if policy.violations.length > 0 then
      ("REJECT", "Policy violations: " ++ String.intercalate "; " (policy.violations.take 2), 0.90)
    else if fraud_level = "MEDIUM" ∨ fraud_risk ≥ 0.4 then
      ("HOLD", "Medium fraud risk (" ++ fmtAmt fraud_risk ++ ") - requires manual review", 0.80)
    else if policy.approval_level = "requires_cfo" ∨ policy.approval_level = "requires_board" then
      ("HOLD", "Amount $" ++ fmtAmt amount ++ " requires " ++ policy.approver_required ++ " approval", 0.85)
    else if policy.warnings.length > 2 then
      ("HOLD", "Multiple policy warnings (" ++ toString policy.warnings.length ++ ") - verify before approval", 0.75)
    else if confidence < 0.75 then
      ("HOLD", "Low extraction confidence (" ++ fmtAmt confidence ++ ") - verify invoice details", 0.70)
    else if policy.approval_level = "requires_director" then
      ("HOLD", "Amount $" ++ fmtAmt amount ++ " requires director approval", 0.85)
    else if policy.approval_level = "requires_manager" then
      ("APPROVE", "Approved pending manager confirmation (amount: $" ++ fmtAmt amount ++ ")", 0.80)
    else if fraud_level = "LOW" ∨ (fraud.is_suspicious ∧ fraud_risk < 0.3) then
      ("APPROVE", "Approved with minor fraud flags - monitor " ++ vendor, 0.75)
    else
      ("APPROVE", "All checks passed - invoice from " ++ vendor ++ " for $" ++ fmtAmt amount, 0.95)
  { decision := dc.1
    reason := dc.2.1
    confidence := dc.2.2
    recommendation := build_recommendation dc.1 fraud policy
    summary :=
      { fraud_risk := fraud_level
        policy_status := if policy.compliant then "Compliant" else "Non-compliant"
        approval_required := policy.approver_required
        amount := amount
        vendor := vendor } }

/-- Regex- and NER-based field extractors of NLPAgent that this embedding
abstracts over (ordered pattern lists over the raw text, and the spaCy
organisation-entity search for the vendor).  NLPAgent.extract is embedded
concretely over any such family. -/
structure Extractors where
  invoice_number : String → Option String
  date : String → Option String
  vendor : String → Option String
  total : String → ℚ
  po_number : String → Option String
  tax : String → Option ℚ

/-- Substring containment (the Python operator in on strings), computed via
splitOn: a non-empty pattern occurs in s exactly when splitting s on it
yields more than one piece. -/
def containsSub (s pat : String) : Bool :=
  (s.splitOn pat).length > 1

/-- NLPAgent._detect_currency: symbol / keyword scan with USD default. -/
def detect_currency (text : String) : String :=
  if text.contains '$' then
    if containsSub text "CAD" || containsSub text "Canadian" then "CAD"
    else if containsSub text "AUD" || containsSub text "Australian" then "AUD"
    else "USD"
  else if containsSub text "€" || containsSub text "EUR" then "EUR"
  else if containsSub text "£" || containsSub text "GBP" then "GBP"
  else if containsSub text "¥" || containsSub text "JPY" then "JPY"
  else if containsSub text "INR" || containsSub text "₹" then "INR"
  else "USD"

/-- NLPAgent._extract_line_items: the source always returns the empty list
(line-item parsing is a placeholder). -/
def extract_line_items (_text : String) : List String := []

/-- NLPAgent._calculate_confidence: 0.25 per present critical field, with
the amount counting only when positive, rounded to two decimals. -/
def calculate_confidence (inv_num date vendor : Option String) (amount : ℚ) : ℚ :=
  let s1 : ℚ := if !falsyS inv_num then 0.25 else 0
  let s2 : ℚ := if !falsyS date then 0.25 else 0
  let s3 : ℚ := if !falsyS vendor then 0.25 else 0
  let s4 : ℚ := if amount > 0 then 0.25 else 0
  round2 (s1 + s2 + s3 + s4)

/-- NLPAgent._empty_result. -/
def empty_result (reason : String) : ExtractedInvoice :=
  { invoice_number := none
    date := none
    vendor := none
    total_amount := 0
    currency := "USD"
    po_number := none
    tax_amount := none
    line_items := []
    confidence := 0
    status := "error"
    error := some reason }

/-- Model of Python str.strip(): drop whitespace from both ends. -/
def pyStrip (s : String) : String :=
  ⟨((s.data.dropWhile Char.isWhitespace).reverse.dropWhile Char.isWhitespace).reverse⟩

/-- NLPAgent.extract: empty or whitespace-only text yields the empty error
result; otherwise every field extractor runs and the result carries status
success.  Total by construction (the never-raises contract). -/
def extract (E : Extractors) (raw_text : String) : ExtractedInvoice :=
  if raw_text = "" ∨ (pyStrip raw_text).length = 0 then
    empty_result "No text to process"
  else
    let invoice_number := E.invoice_number raw_text
    let date := E.date raw_text
    let vendor := E.vendor raw_text
    let total_amount := E.total raw_text
    let currency := detect_currency raw_text
    let po_number := E.po_number raw_text
    let tax_amount := E.tax raw_text
    let line_items := extract_line_items raw_text
    let confidence := calculate_confidence invoice_number date vendor total_amount
    { invoice_number := invoice_number
      date := date
      vendor := vendor
      total_amount := total_amount
      currency := currency
      po_number := po_number
      tax_amount := tax_amount
      line_items := line_items
      confidence := confidence
      status := "success"
      error := none }

-- Helper lemmas: every score the fraud agent can accumulate is an integer
-- multiple of 1/20 (all seven weights are), and round2 is the identity there.

/-- Scores expressible as n / 20 for a natural number n. -/
def Den20 (x : ℚ) : Prop := ∃ n : ℕ, x = n / 20

lemma den20_zero : Den20 0 := ⟨0, by norm_num⟩

lemma den20_add {x y : ℚ} (hx : Den20 x) (hy : Den20 y) : Den20 (x + y) := by
  obtain ⟨m, rfl⟩ := hx
  obtain ⟨n, rfl⟩ := hy
  exact ⟨m + n, by push_cast; ring⟩

lemma den20_min {x y : ℚ} (hx : Den20 x) (hy : Den20 y) : Den20 (min x y) := by
  rcases le_total x y with h | h
  · rw [min_eq_left h]; exact hx
  · rw [min_eq_right h]; exact hy

lemma den20_ite (c : Prop) [Decidable c] {w : ℚ} (hw : Den20 w) :
    Den20 (if c then w else 0) := by
  split
  · exact hw
  · exact den20_zero

lemma round2_den20 {x : ℚ} (h : Den20 x) : round2 x = x := by
  obtain ⟨n, rfl⟩ := h
  unfold round2
  have h1 : ((n : ℚ) / 20) * 100 + 1 / 2 = ((5 * n : ℤ) : ℚ) + 1 / 2 := by
    push_cast; ring
  have h2 : Int.floor (((5 * n : ℤ) : ℚ) + 1 / 2) = 5 * n + Int.floor ((1 : ℚ) / 2) := by
    exact Int.floor_int_add _ _
  have h3 : Int.floor ((1 : ℚ) / 2) = 0 := by norm_num
  rw [h1, h2, h3, add_zero]
  push_cast
  ring

lemma dupPart_snd (data : ExtractedInvoice) (ledger : List LedgerEntry) :
    (dupPart data ledger).2 =
      if (check_duplicate data.invoice_number data.vendor ledger).is_duplicate
      then (0.5 : ℚ) else 0 := by
  simp only [dupPart]
  split <;> rfl

lemma den20_dupPart (data : ExtractedInvoice) (ledger : List LedgerEntry) :
    Den20 (dupPart data ledger).2 := by
  rw [dupPart_snd]
  exact den20_ite _ ⟨10, by norm_num⟩

lemma den20_amountPart (data : ExtractedInvoice) : Den20 (amountPart data).2 := by
  unfold amountPart
  split
  · exact ⟨6, by norm_num⟩
  split
  · exact ⟨4, by norm_num⟩
  · exact den20_zero

lemma den20_roundPart (data : ExtractedInvoice) : Den20 (roundPart data).2 := by
  unfold roundPart
  split
  · exact ⟨3, by norm_num⟩
  · exact den20_zero

lemma den20_freqPart (data : ExtractedInvoice) (ledger : List LedgerEntry) (now : ℚ) :
    Den20 (freqPart data ledger now).2 := by
  simp only [freqPart]
  split
  · exact ⟨5, by norm_num⟩
  · exact den20_zero

lemma den20_missingPart (data : ExtractedInvoice) : Den20 (missingPart data).2 := by
  simp only [missingPart]
  split
  · exact ⟨4, by norm_num⟩
  · exact den20_zero

lemma den20_patternPart (data : ExtractedInvoice) : Den20 (patternPart data).2 := by
  simp only [patternPart]
  split
  · exact ⟨2, by norm_num⟩
  · exact den20_zero

lemma den20_consPart (data : ExtractedInvoice) : Den20 (consPart data).2 := by
  unfold consPart
  split
  · exact den20_zero
  · exact ⟨2, by norm_num⟩

lemma den20_rawScore (data : ExtractedInvoice) (ledger : List LedgerEntry) (now : ℚ) :
    Den20 (rawScore data ledger now) := by
  unfold rawScore
  exact den20_add (den20_add (den20_add (den20_add (den20_add (den20_add
    (den20_dupPart data ledger) (den20_amountPart data)) (den20_roundPart data))
    (den20_freqPart data ledger now)) (den20_missingPart data))
    (den20_patternPart data)) (den20_consPart data)

lemma den20_capped (data : ExtractedInvoice) (ledger : List LedgerEntry) (now : ℚ) :
    Den20 (min (rawScore data ledger now) 1) :=
  den20_min (den20_rawScore data ledger now) ⟨20, by norm_num⟩

lemma check_duplicate_nil (inum vend : Option String) :
    (check_duplicate inum vend []).is_duplicate = false := by
  unfold check_duplicate
  split
  · rfl
  · rfl

lemma dupPart_nil (data : ExtractedInvoice) : dupPart data [] = ([], 0) := by
  simp only [dupPart]
  rw [check_duplicate_nil]
  simp

lemma check_vendor_frequency_single_not (v d : Option String) (e : LedgerEntry) (now : ℚ) :
    (check_vendor_frequency v d [e] now).1 = false := by
  simp only [check_vendor_frequency]
  split
  · rfl
  · have h2 := List.length_filter_le
      (fun e2 : LedgerEntry => decide (e2.vendor = v) && decide (now - e2.timestamp < 3600)) [e]
    have h3 := List.length_filter_le
      (fun e2 : LedgerEntry => decide (e2.vendor = v) && decide (now - e2.timestamp < 86400)) [e]
    simp only [List.length_cons, List.length_nil] at h2 h3
    rw [if_neg, if_neg]
    · unfold suspicious_frequency_same_day
      omega
    · unfold suspicious_frequency_same_hour
      omega

lemma freqPart_nil (data : ExtractedInvoice) (now : ℚ) : freqPart data [] now = ([], 0) := by
  simp only [freqPart, check_vendor_frequency]
  split
  · simp
  · simp [suspicious_frequency_same_day, suspicious_frequency_same_hour]

lemma freqPart_single (data : ExtractedInvoice) (e : LedgerEntry) (now : ℚ) :
    freqPart data [e] now = ([], 0) := by
  simp only [freqPart]
  rw [check_vendor_frequency_single_not]
  simp

lemma store_invoice_nil (data : ExtractedInvoice) (now : ℚ) :
    store_invoice data now [] = [mkEntry data now] := by
  simp [store_invoice]

lemma check_duplicate_self (data : ExtractedInvoice) (t : ℚ)
    (h : falsyS data.invoice_number = false) :
    check_duplicate data.invoice_number data.vendor [mkEntry data t] =
      ⟨true, "Invoice #" ++ showOpt data.invoice_number ++ " already processed for " ++
        showOpt data.vendor⟩ := by
  unfold check_duplicate
  rw [if_neg (by simp [h])]
  unfold dupLoop mkEntry
  rw [if_pos rfl, if_pos rfl]

lemma amountPart_le (data : ExtractedInvoice) : (amountPart data).2 ≤ 0.3 := by
  unfold amountPart
  split
  · norm_num
  split
  · norm_num
  · norm_num

lemma roundPart_le (data : ExtractedInvoice) : (roundPart data).2 ≤ 0.15 := by
  unfold roundPart
  split
  · norm_num
  · norm_num

lemma missingPart_le (data : ExtractedInvoice) : (missingPart data).2 ≤ 0.2 := by
  simp only [missingPart]
  split
  · norm_num
  · norm_num

lemma patternPart_le (data : ExtractedInvoice) : (patternPart data).2 ≤ 0.1 := by
  simp only [patternPart]
  split
  · norm_num
  · norm_num

lemma consPart_le (data : ExtractedInvoice) : (consPart data).2 ≤ 0.1 := by
  unfold consPart
  split
  · norm_num
  · norm_num

lemma rawScore_nil (data : ExtractedInvoice) (now : ℚ) :
    rawScore data [] now =
      (amountPart data).2 + (roundPart data).2 + (missingPart data).2 +
      (patternPart data).2 + (consPart data).2 := by
  unfold rawScore
  rw [dupPart_nil, freqPart_nil]
  ring

lemma rawScore_nil_le (data : ExtractedInvoice) (now : ℚ) :
    rawScore data [] now ≤ 0.85 := by
  rw [rawScore_nil]
  have h1 := amountPart_le data
  have h2 := roundPart_le data
  have h3 := missingPart_le data
  have h4 := patternPart_le data
  have h5 := consPart_le data
  linarith

lemma rawScore_self (data : ExtractedInvoice) (t now : ℚ)
    (h : falsyS data.invoice_number = false) :
    rawScore data [mkEntry data t] now = 0.5 + rawScore data [] now := by
  unfold rawScore
  rw [dupPart_nil, freqPart_nil, freqPart_single]
  rw [dupPart_snd, check_duplicate_self data t h]
  norm_num
  ring

-- Concrete fixtures used by witnesses and counterexamples.

/-- Fixture: a fully populated, well-formed invoice. -/
def invFix : ExtractedInvoice :=
  ⟨some "INV-2025-001", some "2025-10-01", some "Acme Corp", 2345.67, "USD",
   some "PO-12345", some 234.56, [], 0.95, "success", none⟩

/-- Fixture: invoice with a tax amount far above 25 percent of the total. -/
def invTaxHigh : ExtractedInvoice :=
  ⟨some "INV-77", some "2025-10-01", some "Acme Corp", 1000, "USD",
   none, some 300, [], 0.95, "success", none⟩

/-- Fixture: invoice without invoice number. -/
def invNoNum : ExtractedInvoice :=
  ⟨none, some "2025-10-01", some "Acme Corp", 100, "USD",
   none, none, [], 0.5, "success", none⟩

/-- Fixture: high-amount invoice with a missing date and no tax info. -/
def invHighAmt : ExtractedInvoice :=
  ⟨some "INV-9", none, some "V", 50000, "USD", none, none, [], 1, "success", none⟩

/-- Fixture: fraud assessment reporting HIGH risk. -/
def fraudHighFix : FraudResult := ⟨true, 0.8, "HIGH", ["flag"]⟩

/-- Fixture: compliant policy assessment. -/
def policyCleanFix : PolicyResult := ⟨true, [], [], "auto_approve", "System"⟩

/-- Fixture: policy assessment with one violation. -/
def policyViolFix : PolicyResult :=
  ⟨false, ["PO number required"], ["w1", "w2", "w3"], "requires_cfo", "CFO"⟩

/-- Claim C2: when the fraud assessment has risk_level HIGH or a risk score of
at least 0.7, DecisionAgent.decide returns REJECT with confidence 0.95, and
both the decision and the confidence are the same for any two policy
assessments. -/
theorem high_fraud_forces_reject (extraction : ExtractedInvoice)
    (fraud : FraudResult) (p q : PolicyResult)
    (h : fraud.risk_level = "HIGH" ∨ fraud.risk_score ≥ 0.7) :
    (decide_fn extraction fraud p).decision = "REJECT" ∧
    (decide_fn extraction fraud p).confidence = 0.95 ∧
    (decide_fn extraction fraud p).decision = (decide_fn extraction fraud q).decision ∧
    (decide_fn extraction fraud p).confidence = (decide_fn extraction fraud q).confidence := by
  simp only [decide_fn, if_pos h]
  exact ⟨trivial, trivial, trivial, trivial⟩

/-- Witness for C2: a HIGH-risk assessment on the fixture invoice is rejected
at confidence 0.95 whatever the policy result. -/
theorem high_fraud_forces_reject_witness :
    (decide_fn invFix fraudHighFix policyCleanFix).decision = "REJECT" ∧
    (decide_fn invFix fraudHighFix policyCleanFix).confidence = 0.95 ∧
    (decide_fn invFix fraudHighFix policyCleanFix).decision =
      (decide_fn invFix fraudHighFix policyViolFix).decision := by
  have h := high_fraud_forces_reject invFix fraudHighFix policyCleanFix policyViolFix
    (Or.inl rfl)
  exact ⟨h.1, h.2.1, h.2.2.1⟩

/-- Claim C8: FraudAgent.detect always appends exactly one ledger entry for
the scored invoice, the resulting ledger is the suffix of most recent
entries of length min(previous length + 1, 100), and it never exceeds 100
entries. -/
theorem ledger_bounded_fifo (data : ExtractedInvoice) (ledger : List LedgerEntry)
    (now : ℚ) :
    (detect data ledger now).2 =
      (ledger ++ [mkEntry data now]).drop
        (ledger.length + 1 - min (ledger.length + 1) 100) ∧
    ((detect data ledger now).2).length = min (ledger.length + 1) 100 ∧
    ((detect data ledger now).2).length ≤ 100 := by
  have hlen : (ledger ++ [mkEntry data now]).length = ledger.length + 1 := by simp
  simp only [detect, store_invoice]
  by_cases h : (ledger ++ [mkEntry data now]).length > 100
  · rw [if_pos h]
    rw [hlen] at h
    have hmin : min (ledger.length + 1) 100 = 100 := by omega
    refine ⟨?_, ?_, ?_⟩
    · rw [hmin, hlen]
    · rw [List.length_drop, hlen, hmin]
      omega
    · rw [List.length_drop, hlen]
      omega
  · rw [if_neg h]
    rw [hlen] at h
    have hmin : min (ledger.length + 1) 100 = ledger.length + 1 := by omega
    refine ⟨?_, ?_, ?_⟩
    · rw [hmin]
      simp
    · rw [hlen, hmin]
    · rw [hlen]
      omega

/-- Claim C9: with an absent (None or empty) invoice number the duplicate
check reports no duplicate and contributes 0, the invoice-pattern check does
not fire either, and the absence is surfaced by the missing-critical-fields
check, whose list contains invoice_number. -/
theorem absent_invoice_number_duplicate_silent (data : ExtractedInvoice)
    (ledger : List LedgerEntry)
    (h : data.invoice_number = none ∨ data.invoice_number = some "") :
    (check_duplicate data.invoice_number data.vendor ledger).is_duplicate = false ∧
    (dupPart data ledger).2 = 0 ∧
    (check_invoice_pattern data.invoice_number).1 = false ∧
    "invoice_number" ∈ check_missing_fields data := by
  have hf : falsyS data.invoice_number = true := by
    rcases h with h | h <;> rw [h] <;> rfl
  have h1 : (check_duplicate data.invoice_number data.vendor ledger).is_duplicate = false := by
    unfold check_duplicate
    rw [if_pos hf]
  refine ⟨h1, ?_, ?_, ?_⟩
  · rw [dupPart_snd, h1]
    simp
  · unfold check_invoice_pattern
    rw [if_pos hf]
  · unfold check_missing_fields
    rw [if_pos hf]
    simp

/-- Witness for C9 on a concrete invoice lacking its invoice number. -/
theorem absent_invoice_number_duplicate_silent_witness :
    (check_duplicate invNoNum.invoice_number invNoNum.vendor []).is_duplicate = false ∧
    "invoice_number" ∈ check_missing_fields invNoNum := by
  have h := absent_invoice_number_duplicate_silent invNoNum [] (Or.inl rfl)
  exact ⟨h.1, h.2.2.2⟩

/-- Claim C10: an assessment produced by FraudAgent.detect can never be
suspicious with a risk score below 0.3, so the second disjunct of decision
rule 9 is unreachable on real fraud outputs and the rule-9 condition
degenerates to risk_level = LOW. -/
theorem suspicious_low_score_unreachable (data : ExtractedInvoice)
    (ledger : List LedgerEntry) (now : ℚ) :
    ¬((detect data ledger now).1.is_suspicious = true ∧
      (detect data ledger now).1.risk_score < 0.3) ∧
    (((detect data ledger now).1.risk_level = "LOW" ∨
      ((detect data ledger now).1.is_suspicious = true ∧
        (detect data ledger now).1.risk_score < 0.3)) ↔
      (detect data ledger now).1.risk_level = "LOW") := by
  have hr : (detect data ledger now).1.risk_score = min (rawScore data ledger now) 1 := by
    simp only [detect]
    exact round2_den20 (den20_capped data ledger now)
  have hs : (detect data ledger now).1.is_suspicious =
      decide (min (rawScore data ledger now) 1 ≥ 0.3) := by
    simp only [detect]
  have key : ¬((detect data ledger now).1.is_suspicious = true ∧
      (detect data ledger now).1.risk_score < 0.3) := by
    rintro ⟨h1, h2⟩
    rw [hs] at h1
    rw [hr] at h2
    have h3 := of_decide_eq_true h1
    linarith
  exact ⟨key, ⟨fun h => h.elim id (fun hh => absurd hh key), Or.inl⟩⟩

/-- Claim C5: the risk level is the step function with inclusive thresholds
0.2 / 0.4 / 0.7, and an assessment is suspicious exactly when its risk score
is at least 0.3. -/
theorem risk_step_and_suspicious :
    (∀ s : ℚ, 0 ≤ s → s ≤ 1 →
      ((get_risk_level s = "HIGH" ↔ 0.7 ≤ s) ∧
       (get_risk_level s = "MEDIUM" ↔ 0.4 ≤ s ∧ s < 0.7) ∧
       (get_risk_level s = "LOW" ↔ 0.2 ≤ s ∧ s < 0.4) ∧
       (get_risk_level s = "MINIMAL" ↔ s < 0.2))) ∧
    (∀ (data : ExtractedInvoice) (ledger : List LedgerEntry) (now : ℚ),
      (detect data ledger now).1.is_suspicious = true ↔
      0.3 ≤ (detect data ledger now).1.risk_score) := by
  constructor
  · intro s h0 h1
    unfold get_risk_level
    split_ifs with hH hM hL
    · exact ⟨iff_of_true rfl hH,
        iff_of_false (by decide) (fun h => by linarith [h.2]),
        iff_of_false (by decide) (fun h => by linarith [h.2]),
        iff_of_false (by decide) (fun h => by linarith)⟩
    · exact ⟨iff_of_false (by decide) hH,
        iff_of_true rfl ⟨hM, not_le.mp hH⟩,
        iff_of_false (by decide) (fun h => by linarith [h.2]),
        iff_of_false (by decide) (fun h => by linarith)⟩
    · exact ⟨iff_of_false (by decide) hH,
        iff_of_false (by decide) (fun h => hM h.1),
        iff_of_true rfl ⟨hL, not_le.mp hM⟩,
        iff_of_false (by decide) (fun h => by linarith)⟩
    · exact ⟨iff_of_false (by decide) hH,
        iff_of_false (by decide) (fun h => hM h.1),
        iff_of_false (by decide) (fun h => hL h.1),
        iff_of_true rfl (not_le.mp hL)⟩
  · intro data ledger now
    have hr : (detect data ledger now).1.risk_score = min (rawScore data ledger now) 1 := by
      simp only [detect]
      exact round2_den20 (den20_capped data ledger now)
    have hs : (detect data ledger now).1.is_suspicious =
        decide (min (rawScore data ledger now) 1 ≥ 0.3) := by
      simp only [detect]
    rw [hr, hs]
    exact decide_eq_true_iff

/-- Witness for C5 at the three boundary scores and zero. -/
theorem risk_step_and_suspicious_witness :
    get_risk_level 0.7 = "HIGH" ∧ get_risk_level 0.4 = "MEDIUM" ∧
    get_risk_level 0.2 = "LOW" ∧ get_risk_level 0 = "MINIMAL" := by
  refine ⟨?_, ?_, ?_, ?_⟩
  · exact (risk_step_and_suspicious.1 0.7 (by norm_num) (by norm_num)).1.mpr (by norm_num)
  · exact (risk_step_and_suspicious.1 0.4 (by norm_num) (by norm_num)).2.1.mpr
      (by norm_num)
  · exact (risk_step_and_suspicious.1 0.2 (by norm_num) (by norm_num)).2.2.1.mpr
      (by norm_num)
  · exact (risk_step_and_suspicious.1 0 (by norm_num) (by norm_num)).2.2.2.mpr
      (by norm_num)

/-- Claim C7: with a present, positive tax amount, check 7 contributes its
flag and 0.1 exactly when the total is positive and the tax percentage falls
outside [3, 25]; with an absent or non-positive tax amount it never fires. -/
theorem tax_consistency_characterised (data : ExtractedInvoice) :
    (∀ t : ℚ, data.tax_amount = some t → 0 < t →
      consPart data =
        if 0 < data.total_amount ∧
            (t / data.total_amount * 100 < 3 ∨ t / data.total_amount * 100 > 25)
          then (["Tax calculation appears inconsistent"], (0.1 : ℚ)) else ([], 0)) ∧
    ((data.tax_amount = none ∨ ∃ t, data.tax_amount = some t ∧ t ≤ 0) →
      consPart data = ([], 0)) := by
  constructor
  · intro t ht hpos
    have hc : check_amount_consistency data =
        (if data.total_amount > 0 then
          (if t / data.total_amount * 100 < 3 ∨ t / data.total_amount * 100 > 25
            then false else true)
          else true) := by
      simp only [check_amount_consistency, ht]
      rw [if_neg (not_le.mpr hpos)]
    unfold consPart
    rw [hc]
    by_cases hT : data.total_amount > 0
    · rw [if_pos hT]
      by_cases hO : t / data.total_amount * 100 < 3 ∨ t / data.total_amount * 100 > 25
      · rw [if_pos hO, if_neg Bool.false_ne_true, if_pos ⟨hT, hO⟩]
      · rw [if_neg hO, if_pos rfl, if_neg (fun hh => hO hh.2)]
    · rw [if_neg hT, if_pos rfl, if_neg (fun hh => hT hh.1)]
  · rintro (h | ⟨t, ht, hle⟩)
    · have hc : check_amount_consistency data = true := by
        simp only [check_amount_consistency, h]
      unfold consPart
      rw [hc, if_pos rfl]
    · have hc : check_amount_consistency data = true := by
        simp only [check_amount_consistency, ht]
        rw [if_pos hle]
      unfold consPart
      rw [hc, if_pos rfl]

/-- Witness for C7: a 30 percent tax fires the check on a concrete invoice,
and an invoice without tax information never does. -/
theorem tax_consistency_characterised_witness :
    consPart invTaxHigh = (["Tax calculation appears inconsistent"], 0.1) ∧
    consPart invHighAmt = ([], 0) := by
  constructor
  · have h := (tax_consistency_characterised invTaxHigh).1 300 rfl (by norm_num)
    have hcond : 0 < invTaxHigh.total_amount ∧
        ((300 : ℚ) / invTaxHigh.total_amount * 100 < 3 ∨
          (300 : ℚ) / invTaxHigh.total_amount * 100 > 25) := by
      refine ⟨by norm_num [invTaxHigh], Or.inr (by norm_num [invTaxHigh])⟩
    rw [h, if_pos hcond]
  · exact (tax_consistency_characterised invHighAmt).2 (Or.inl rfl)

/-- Fixture: ledger entry with invoice number INV-1 from vendor B. -/
def entB : LedgerEntry := ⟨some "INV-1", some "B", 100, some "2025-01-01", 0⟩

/-- Fixture: ledger entry with invoice number INV-1 from vendor A. -/
def entA : LedgerEntry := ⟨some "INV-1", some "A", 100, some "2025-01-02", 10⟩

/-- Counterexample to claim C1: the ledger [entB, entA] contains an entry
(entA) with the same invoice number AND the same vendor as the submitted
invoice, yet the duplicate check reports no duplicate, because the earlier
entry entB with the same number but a different vendor makes the scan stop
first. -/
theorem dup_check_position_counterexample :
    (entA ∈ [entB, entA] ∧ entA.invoice_number = some "INV-1" ∧
      entA.vendor = some "A") ∧
    (check_duplicate (some "INV-1") (some "A") [entB, entA]).is_duplicate = false := by
  decide

/-- Amended duplicate rule, phrased from the claim side: only the FIRST
ledger entry carrying the submitted invoice number decides, and it must also
carry the same vendor. -/
def firstMatchDup (inum vend : Option String) (ledger : List LedgerEntry) : Bool :=
  match ledger.find? (fun e => decide (e.invoice_number = inum)) with
  | some e => decide (e.vendor = vend)
  | none => false

/-- Claim C1 as amended: for a present invoice number, the duplicate check
fires exactly when the first ledger entry with that invoice number (if any)
also has the same vendor; later exact matches are shadowed. -/
theorem dup_check_first_match (inum vend : Option String)
    (ledger : List LedgerEntry) (h : falsyS inum = false) :
    (check_duplicate inum vend ledger).is_duplicate =
      firstMatchDup inum vend ledger := by
  unfold check_duplicate
  rw [if_neg (by simp [h])]
  induction ledger with
  | nil => rfl
  | cons e rest ih =>
    unfold dupLoop
    by_cases he : e.invoice_number = inum
    · rw [if_pos he]
      unfold firstMatchDup
      rw [List.find?_cons_of_pos _ (by simp [he])]
      by_cases hv : e.vendor = vend
      · rw [if_pos hv]
        simp [hv]
      · rw [if_neg hv]
        simp [hv]
    · rw [if_neg he]
      unfold firstMatchDup
      rw [List.find?_cons_of_neg _ (by simp [he])]
      exact ih

/-- Witness for the amended C1 on the two-entry ledger of the
counterexample. -/
theorem dup_check_first_match_witness :
    (check_duplicate (some "INV-1") (some "A") [entB, entA]).is_duplicate =
      firstMatchDup (some "INV-1") (some "A") [entB, entA] ∧
    firstMatchDup (some "INV-1") (some "A") [entB, entA] = false := by
  exact ⟨dup_check_first_match _ _ _ (by decide), by decide⟩

lemma amountPart_invHighAmt : (amountPart invHighAmt).2 = 0.3 := by
  simp [amountPart, invHighAmt, very_high_amount]

lemma roundPart_invHighAmt : (roundPart invHighAmt).2 = 0.15 := by
  have hden : ((50000 : ℚ) / 100).den = 1 := by norm_num [Rat.den_ofNat]
  norm_num [roundPart, is_suspicious_round_amount, invHighAmt, round_amount_min, hden]

lemma missingPart_invHighAmt : (missingPart invHighAmt).2 = 0.2 := by
  have hm : check_missing_fields invHighAmt = ["date"] := by decide
  simp [missingPart, hm]

lemma patternPart_invHighAmt : (patternPart invHighAmt).2 = 0 := by
  have hp : (check_invoice_pattern invHighAmt.invoice_number).1 = false := by decide
  simp [patternPart, hp]

lemma consPart_invHighAmt : (consPart invHighAmt).2 = 0 := by
  have hc : check_amount_consistency invHighAmt = true := by decide
  simp [consPart, hc]

lemma raw_invHighAmt_nil (now : ℚ) : rawScore invHighAmt [] now = 0.65 := by
  rw [rawScore_nil, amountPart_invHighAmt, roundPart_invHighAmt,
    missingPart_invHighAmt, patternPart_invHighAmt, consPart_invHighAmt]
  norm_num

/-- Counterexample to claim C4: submitting invHighAmt twice from an empty
ledger gives a first score of 0.65 and a second score capped at 1.0, so the
second score is only 0.35 higher, not 0.5. -/
theorem dup_second_submission_counterexample :
    (detect invHighAmt [] 0).1.risk_score = 0.65 ∧
    (detect invHighAmt (detect invHighAmt [] 0).2 10).1.risk_score = 1 ∧
    (detect invHighAmt (detect invHighAmt [] 0).2 10).1.risk_score -
      (detect invHighAmt [] 0).1.risk_score < 0.5 := by
  have h1 := raw_invHighAmt_nil 0
  have hr1 : (detect invHighAmt [] 0).1.risk_score = 0.65 := by
    simp only [detect]
    rw [h1, min_eq_left (by norm_num), round2_den20 ⟨13, by norm_num⟩]
  have hl : (detect invHighAmt [] 0).2 = [mkEntry invHighAmt 0] := by
    simp only [detect]
    exact store_invoice_nil invHighAmt 0
  have hr2 : (detect invHighAmt (detect invHighAmt [] 0).2 10).1.risk_score = 1 := by
    rw [hl]
    simp only [detect]
    rw [rawScore_self invHighAmt 0 10 (by decide), raw_invHighAmt_nil 10,
      min_eq_right (by norm_num), round2_den20 ⟨20, by norm_num⟩]
  refine ⟨hr1, hr2, ?_⟩
  rw [hr1, hr2]
  norm_num

/-- Claim C4 as amended: scoring the same invoice (with a present invoice
number and vendor) twice in a row starting from the empty ledger, the second
assessment carries the duplicate flag and its risk score equals
min(first score + 0.5, 1) - at least 0.5 higher unless capped at 1.0. -/
theorem dup_second_submission_scores (data : ExtractedInvoice) (now1 now2 : ℚ)
    (h : falsyS data.invoice_number = false)
    (_hv : falsyS data.vendor = false) :
    ("Duplicate invoice: " ++ ("Invoice #" ++ showOpt data.invoice_number ++
      " already processed for " ++ showOpt data.vendor)) ∈
      (detect data (detect data [] now1).2 now2).1.flags ∧
    (detect data (detect data [] now1).2 now2).1.risk_score =
      min ((detect data [] now1).1.risk_score + 0.5) 1 := by
  have hl : (detect data [] now1).2 = [mkEntry data now1] := by
    simp only [detect]
    exact store_invoice_nil data now1
  have hA : rawScore data [] now2 = rawScore data [] now1 := by
    rw [rawScore_nil, rawScore_nil]
  have hraw2 : rawScore data [mkEntry data now1] now2 =
      0.5 + rawScore data [] now1 := by
    rw [rawScore_self data now1 now2 h, hA]
  have h85 : rawScore data [] now1 ≤ 0.85 := rawScore_nil_le data now1
  have hcap1 : min (rawScore data [] now1) 1 = rawScore data [] now1 :=
    min_eq_left (by linarith)
  have hr1 : (detect data [] now1).1.risk_score = rawScore data [] now1 := by
    simp only [detect]
    rw [hcap1]
    exact round2_den20 (den20_rawScore data [] now1)
  constructor
  · rw [hl]
    have hdF : (dupPart data [mkEntry data now1]).1 =
        ["Duplicate invoice: " ++ ("Invoice #" ++ showOpt data.invoice_number ++
          " already processed for " ++ showOpt data.vendor)] := by
      simp only [dupPart]
      rw [check_duplicate_self data now1 h]
      rfl
    have hmem : ("Duplicate invoice: " ++ ("Invoice #" ++ showOpt data.invoice_number ++
        " already processed for " ++ showOpt data.vendor)) ∈
        rawFlags data [mkEntry data now1] now2 := by
      unfold rawFlags
      simp [hdF]
    have hne : rawFlags data [mkEntry data now1] now2 ≠ [] := by
      intro hnil
      rw [hnil] at hmem
      exact absurd hmem (List.not_mem_nil _)
    simp only [detect]
    rw [if_neg hne]
    exact hmem
  · rw [hl, hr1]
    simp only [detect]
    rw [hraw2]
    by_cases hb : rawScore data [] now1 ≤ 0.5
    · have hm1 : min (0.5 + rawScore data [] now1) 1 =
          0.5 + rawScore data [] now1 := min_eq_left (by linarith)
      rw [hm1, round2_den20 (den20_add ⟨10, by norm_num⟩
        (den20_rawScore data [] now1))]
      rw [min_eq_left (by linarith)]
      ring
    · have hm1 : min (0.5 + rawScore data [] now1) 1 = 1 :=
        min_eq_right (by linarith)
      rw [hm1, round2_den20 ⟨20, by norm_num⟩]
      rw [min_eq_right (by linarith)]

/-- Witness for the amended C4 on the fixture invoice. -/
theorem dup_second_submission_scores_witness :
    (detect invHighAmt (detect invHighAmt [] 0).2 10).1.risk_score =
      min ((detect invHighAmt [] 0).1.risk_score + 0.5) 1 :=
  (dup_second_submission_scores invHighAmt 0 10 (by decide) (by decide)).2

/-- Claim C3 (documenting a code bug): the invoice number AB_123 is present,
longer than 3 characters and contains a character outside [A-Za-z0-9#-], yet
_validate_invoice_format reports it VALID with an unusual-characters
message, so check 6 of check_compliance appends no warning (and no
violation): the message is computed and then dropped. -/
theorem format_check_emits_no_warning :
    ("AB_123".length ≥ 3 ∧ "AB_123".toList.all invoiceFormatChar = false) ∧
    (validate_invoice_format (some "AB_123")).valid = true ∧
    (validate_invoice_format (some "AB_123")).message =
      "Invoice number AB_123 contains unusual characters" ∧
    invoice_format_warnings (some "AB_123") = [] ∧
    invoice_format_violations (some "AB_123") = [] := by
  decide

lemma string_len_zero {s : String} (h : s.length = 0) : s = "" := by
  cases s with
  | mk l =>
    simp only [String.length] at h
    simp only [List.length_eq_zero] at h
    subst h
    rfl

/-- Claim C6: NLPAgent.extract is total; empty or whitespace-only text gives
the all-null/zero error result, any other text gives status success. -/
theorem extract_total_contract (E : Extractors) (t : String) :
    (pyStrip t = "" → extract E t = empty_result "No text to process") ∧
    (pyStrip t ≠ "" → (extract E t).status = "success") := by
  constructor
  · intro h
    unfold extract
    rw [if_pos (Or.inr (by rw [h]; rfl))]
  · intro h
    unfold extract
    rw [if_neg]
    rintro (h1 | h2)
    · exact h (by rw [h1]; decide)
    · exact h (string_len_zero h2)

/-- Fixture: a family of field extractors that finds nothing. -/
def trivialExtractors : Extractors :=
  ⟨fun _ => none, fun _ => none, fun _ => none, fun _ => 0,
   fun _ => none, fun _ => none⟩

/-- Witness for C6 on whitespace-only and non-empty inputs. -/
theorem extract_total_contract_witness :
    extract trivialExtractors " " = empty_result "No text to process" ∧
    (extract trivialExtractors "INV 42").status = "success" := by
  exact ⟨(extract_total_contract trivialExtractors " ").1 (by decide),
    (extract_total_contract trivialExtractors "INV 42").2 (by decide)⟩
